import Mathlib

/-!
Verification of the capital-city agent script (src/main.py of
rmisegal/interactive-capital-city-agent).

Python strings are embedded as Lean strings; the Python string methods
used by the script (str.lower, the in operator on strings, str.strip)
are modelled on their ASCII fragment, which covers every literal the
script compares against.
-/

namespace CapitalAgent

/-- Embedding of Python str.lower (ASCII fragment). -/
def pyLower (s : String) : String := ⟨s.data.map Char.toLower⟩

/-- Does the first list occur as a consecutive run inside the second?
Checked by scanning every suffix. -/
def hasSubList (needle : List Char) : List Char → Bool
  | [] => needle.isPrefixOf []
  | c :: t => needle.isPrefixOf (c :: t) || hasSubList needle t

/-- Embedding of the Python expression needle in hay on strings:
substring containment. -/
def pySubstr (needle hay : String) : Bool := hasSubList needle.data hay.data

/-- Embedding of Python str.strip with no arguments: remove leading and
trailing whitespace (ASCII fragment). -/
def pyStrip (s : String) : String :=
  ⟨((s.data.dropWhile Char.isWhitespace).reverse.dropWhile Char.isWhitespace).reverse⟩

/-- Embedding of Python truthiness of an optional string (None and the
empty string are falsy). -/
def pyTruthy : Option String → Bool
  | some s => !(s == "")
  | none => false

/-- The dict literal inside get_capital_city (src/main.py lines 47-59),
as an association list in the literal's order. Python dict lookup on
distinct keys coincides with first-match association lookup. -/
def capitals : List (String × String) :=
  [("france", "Paris"),
   ("japan", "Tokyo"),
   ("usa", "Washington D.C."),
   ("united states", "Washington D.C."),
   ("germany", "Berlin"),
   ("italy", "Rome"),
   ("spain", "Madrid"),
   ("uk", "London"),
   ("united kingdom", "London"),
   ("canada", "Ottawa"),
   ("australia", "Canberra")]

/-- get_capital_city (src/main.py lines 41-63): capitals.get of the
lowercased argument with default Unknown. The two [TOOL] prints are
modelled separately by get_capital_city_prints. -/
def get_capital_city (country : String) : String :=
  ((capitals.lookup (pyLower country)).getD "Unknown")

/-- The two [TOOL] trace lines printed by get_capital_city. -/
def get_capital_city_prints (country : String) : List String :=
  ["[TOOL] CALLED: get_capital_city(" ++ "'" ++ country ++ "')",
   "[TOOL] RESULT: " ++ "'" ++ get_capital_city country ++ "'"]

/-- The countries list of interactive_chat (src/main.py lines 164-165). -/
def countriesInteractive : List String :=
  ["japan", "france", "germany", "italy", "spain", "usa", "united states",
   "uk", "united kingdom", "canada", "australia"]

/-- The countries list of demo_sequence (src/main.py lines 234-235);
the script repeats the literal. -/
def countriesDemo : List String :=
  ["japan", "france", "germany", "italy", "spain", "usa", "united states",
   "uk", "united kingdom", "canada", "australia"]

/-- The for-loop with break over a countries list (src/main.py lines
167-172 and 237-242): the first entry that is a substring of the
lowercased input, if any. -/
def findCountry (countries : List String) (input : String) : Option String :=
  countries.find? (fun c => pySubstr c (pyLower input))

/-- Country extraction as performed inside interactive_chat. -/
def extractCountryInteractive (input : String) : Option String :=
  findCountry countriesInteractive input

/-- Country extraction as performed inside demo_sequence. -/
def extractCountryDemo (input : String) : Option String :=
  findCountry countriesDemo input

/-- External-effect events of one processed utterance. The prompt
templates are fixed literal text, so an LLM call event records the
template's dynamic fields: llmAnalysis is the model.generate_content
call on enhanced_prompt (built from the user input), llmFinal the call
on final_prompt (built from input, country and capital), toolCall a
get_capital_city invocation. -/
inductive Event where
  | llmAnalysis (userInput : String)
  | toolCall (country : String)
  | llmFinal (userInput country capital : String)
  deriving DecidableEq

/-- The external-effect trace of one processed utterance in
interactive_chat (src/main.py lines 145-191): always the analysis call,
then, when a country is found, the tool call and the final-response
call. -/
def interactiveTurnEvents (input : String) : List Event :=
  match extractCountryInteractive input with
  | some c =>
      [Event.llmAnalysis input, Event.toolCall c,
       Event.llmFinal input c (get_capital_city c)]
  | none => [Event.llmAnalysis input]

/-- The external-effect trace of one demo question in demo_sequence
(src/main.py lines 237-264): no analysis call is made; when a country
is found, the tool call and the final-response call. -/
def demoTurnEvents (question : String) : List Event :=
  match extractCountryDemo question with
  | some c =>
      [Event.toolCall c, Event.llmFinal question c (get_capital_city c)]
  | none => []

/-- The fixed demo questions (src/main.py lines 212-217). -/
def test_questions : List String :=
  ["What is the capital of Japan?",
   "Tell me about France's capital",
   "What about Germany?",
   "Capital of Australia?"]

def isLlmCall : Event → Bool
  | Event.llmAnalysis _ => true
  | Event.llmFinal _ _ _ => true
  | Event.toolCall _ => false

/-- Number of generate_content round trips in a trace. -/
def llmCallCount (es : List Event) : Nat := (es.filter isLlmCall).length

/-- The tool invocations in a trace, in order. -/
def toolCallsOf (es : List Event) : List String :=
  es.filterMap (fun e => match e with | Event.toolCall c => some c | _ => none)

/-! The interactive loop (src/main.py lines 119-203). One iteration is
driven by what the turn delivers: a line from input(), or an exception
escaping the try body. Python KeyboardInterrupt derives BaseException
but not Exception, and the loop handles it by its own clause. -/

/-- What one iteration of the while loop receives: the line returned by
input() (already including whatever the user typed), or an exception
raised while processing the turn. exc carries str(e) for an exception
caught by the except Exception clause; keyboardInterrupt is a raised
KeyboardInterrupt. -/
inductive TurnInput where
  | line (s : String)
  | keyboardInterrupt
  | exc (msg : String)

/-- Observable outcome of one loop iteration: whether the loop goes on
to the next prompt, the lines printed, and the external-effect events. -/
structure IterOut where
  keepLooping : Bool
  printed : List String
  events : List Event
  deriving DecidableEq

def bar40 : String := "========================================"

/-- The prints of one fully processed turn (src/main.py lines 131-195).
respText stands for final_response.text, the text returned by the
second generate_content call; the first call's response is never
printed or used. -/
def processedTurnPrints (input respText : String) : List String :=
  ["", bar40, "PROCESSING YOUR MESSAGE...", bar40,
   "[USER] INPUT: " ++ "'" ++ input ++ "'",
   "[MEMORY] Storing user message...",
   "[LLM] Sending to Gemini for processing...",
   "[LLM] Analyzing user question..."] ++
  (match extractCountryInteractive input with
   | some c =>
       get_capital_city_prints c ++
       ["[LLM] Generating final response...",
        "[AGENT] FINAL: " ++ respText]
   | none =>
       ["[AGENT] I'm not sure which country you're asking about. Could you please clarify?"]) ++
  ["[MEMORY] Conversation stored", bar40, ""]

/-- One iteration of the interactive while loop (src/main.py lines
119-203): strip the input, break on quit words, skip blank input,
otherwise process the turn; the KeyboardInterrupt clause prints a
goodbye and breaks, the except Exception clause prints the error and
continues. -/
def loopIter (respText : String) : TurnInput → IterOut
  | TurnInput.keyboardInterrupt =>
      { keepLooping := false, printed := ["\nGoodbye!"], events := [] }
  | TurnInput.exc msg =>
      { keepLooping := true,
        printed := ["[ERROR] " ++ msg, "Please try again.", ""],
        events := [] }
  | TurnInput.line s =>
      let t := pyStrip s
      if (["quit", "exit", "bye"] : List String).contains (pyLower t) then
        { keepLooping := false, printed := ["Goodbye!"], events := [] }
      else if t == "" then
        { keepLooping := true, printed := [], events := [] }
      else
        { keepLooping := true,
          printed := processedTurnPrints t respText,
          events := interactiveTurnEvents t }

/-! LoggingRunner (src/main.py lines 65-83): conversation_history
starts empty and run_async appends one assistant message per event
that carries a truthy message, printing two lines for it. -/

/-- An entry of conversation_history: the dict with role and content
keys appended at src/main.py line 82. -/
structure Msg where
  role : String
  content : String
  deriving DecidableEq

/-- One event yielded by the wrapped runner, reduced to the data the
override looks at: some t when hasattr(event, 'message') holds and
event.message is truthy, with t the message text; none otherwise. -/
def RunnerEvent : Type := Option String

/-- The body of the async-for in run_async (src/main.py lines 78-83)
for one event: the lines printed and the updated history. -/
def runAsyncStep (history : List Msg) (ev : Option String) : List String × List Msg :=
  match ev with
  | some t =>
      (["[LLM] RESPONSE: Agent is thinking...", "[AGENT] " ++ t],
       history ++ [{ role := "assistant", content := t }])
  | none => ([], history)

/-- The async-for of run_async over a finite event stream. -/
def runAsyncLoop (history : List Msg) : List (Option String) → List String × List Msg
  | [] => ([], history)
  | ev :: evs =>
      let out := runAsyncStep history ev
      let rest := runAsyncLoop out.2 evs
      (out.1 ++ rest.1, rest.2)

/-- run_async (src/main.py lines 72-83): the two [MEMORY] banner lines,
then the loop over the event stream. -/
def run_async (history : List Msg) (evs : List (Option String)) : List String × List Msg :=
  let rest := runAsyncLoop history evs
  (["[MEMORY] Starting agent execution",
    "[MEMORY] Loading conversation history..."] ++ rest.1, rest.2)

/-! Module-level API key handling (src/main.py lines 33-38). -/

/-- Outcome of the module-level key check: what is printed, whether
genai.configure ran, and whether the program halted (the script never
exits here, so halted is false on both branches of the if). -/
structure StartupOut where
  printed : List String
  configured : Bool
  halted : Bool
  deriving DecidableEq

/-- The if api_key block (src/main.py lines 33-38). getenv yields none
when GEMINI_API_KEY is not set; Python truthiness also sends an empty
value to the warning branch. -/
def startup (geminiApiKey : Option String) : StartupOut :=
  if pyTruthy geminiApiKey then
    { printed := ["Gemini API key loaded successfully"], configured := true, halted := false }
  else
    { printed := ["Warning: GEMINI_API_KEY environment variable not set"],
      configured := false, halted := false }

/-- Modelled from the spec: the behaviour of the external
google-generativeai SDK, which is not part of this repository. A
generate_content network call succeeds only once an API key has been
configured; with no key configured the first attempted call fails.
respText stands for the text the hosted model would return. -/
def generate_content (configured : Bool) (prompt respText : String) : Except String String :=
  if configured then Except.ok respText
  else Except.error "API key not configured"

/-! Helper lemmas. -/

/-- isPrefixOf on characters is the existence of a completing tail. -/
theorem isPrefixOf_iff_exists_append (n : List Char) :
    ∀ h : List Char, n.isPrefixOf h = true ↔ ∃ t, h = n ++ t := by
  induction n with
  | nil => intro h; simp [List.isPrefixOf]
  | cons a n ih =>
    intro h
    cases h with
    | nil =>
      simp [List.isPrefixOf]
    | cons b t =>
      simp only [List.isPrefixOf, Bool.and_eq_true, beq_iff_eq, ih t]
      constructor
      · rintro ⟨rfl, t', rfl⟩
        exact ⟨t', rfl⟩
      · rintro ⟨t', ht⟩
        injection ht with h1 h2
        exact ⟨h1.symm, t', h2⟩

/-- hasSubList is the existence of a decomposition around the needle. -/
theorem hasSubList_iff_exists (n : List Char) :
    ∀ h : List Char, hasSubList n h = true ↔ ∃ pre post, h = pre ++ (n ++ post) := by
  intro h
  induction h with
  | nil =>
    simp only [hasSubList, isPrefixOf_iff_exists_append]
    constructor
    · rintro ⟨t, ht⟩
      exact ⟨[], t, ht⟩
    · rintro ⟨pre, post, hp⟩
      rcases List.append_eq_nil.mp hp.symm with ⟨rfl, h2⟩
      exact ⟨post, hp⟩
  | cons c t ih =>
    simp only [hasSubList, Bool.or_eq_true, isPrefixOf_iff_exists_append, ih]
    constructor
    · rintro (⟨t', ht⟩ | ⟨pre, post, hp⟩)
      · exact ⟨[], t', ht⟩
      · exact ⟨c :: pre, post, by simp [hp]⟩
    · rintro ⟨pre, post, hp⟩
      cases pre with
      | nil => exact Or.inl ⟨post, hp⟩
      | cons x pre =>
        injection hp with h1 h2
        exact Or.inr ⟨pre, post, h2⟩

/-- find? returns the head of the filtered list. -/
theorem find?_eq_head?_filter {α : Type} (p : α → Bool) :
    ∀ l : List α, l.find? p = (l.filter p).head? := by
  intro l
  induction l with
  | nil => rfl
  | cons a t ih =>
    cases hp : p a
    · rw [List.find?_cons_of_neg t (by simp [hp]),
        List.filter_cons_of_neg (by simp [hp]), ih]
    · rw [List.find?_cons_of_pos t hp, List.filter_cons_of_pos hp,
        List.head?_cons]

/-- The two country-list literals in the script are the same list. -/
theorem countriesDemo_eq : countriesDemo = countriesInteractive := rfl

/-- History-threading of the run_async loop: the printed output never
depends on the incoming history, and the history only grows by a
suffix determined by the events alone. -/
theorem runAsyncLoop_hist :
    ∀ (evs : List (Option String)) (h : List Msg),
      (runAsyncLoop h evs).1 = (runAsyncLoop [] evs).1
      ∧ (runAsyncLoop h evs).2 = h ++ (runAsyncLoop [] evs).2 := by
  intro evs
  induction evs with
  | nil => intro h; simp [runAsyncLoop]
  | cons ev evs ih =>
    intro h
    cases ev with
    | none =>
      simpa [runAsyncLoop, runAsyncStep] using ih h
    | some t =>
      have h1 := ih (h ++ [{ role := "assistant", content := t }])
      have h2 := ih ([{ role := "assistant", content := t }])
      simp only [runAsyncLoop, runAsyncStep, List.nil_append] at h1 h2 ⊢
      refine ⟨?_, ?_⟩
      · rw [h1.1, h2.1]
      · rw [h1.2, h2.2, List.append_assoc]

/-! Claim theorems. -/

/-- C1: for every string c, get_capital_city returns the expected
capital when the lowercased argument is one of the known country keys,
and Unknown for every other string; matching is case-insensitive in
the argument. -/
theorem get_capital_city_lookup_spec (c : String) :
    get_capital_city c =
      if pyLower c = "france" then "Paris"
      else if pyLower c = "japan" then "Tokyo"
      else if pyLower c = "usa" then "Washington D.C."
      else if pyLower c = "united states" then "Washington D.C."
      else if pyLower c = "germany" then "Berlin"
      else if pyLower c = "italy" then "Rome"
      else if pyLower c = "spain" then "Madrid"
      else if pyLower c = "uk" then "London"
      else if pyLower c = "united kingdom" then "London"
      else if pyLower c = "canada" then "Ottawa"
      else if pyLower c = "australia" then "Canberra"
      else "Unknown" := by
  by_cases h1 : pyLower c = "france"
  · rw [if_pos h1]; unfold get_capital_city; rw [h1]; decide
  rw [if_neg h1]
  by_cases h2 : pyLower c = "japan"
  · rw [if_pos h2]; unfold get_capital_city; rw [h2]; decide
  rw [if_neg h2]
  by_cases h3 : pyLower c = "usa"
  · rw [if_pos h3]; unfold get_capital_city; rw [h3]; decide
  rw [if_neg h3]
  by_cases h4 : pyLower c = "united states"
  · rw [if_pos h4]; unfold get_capital_city; rw [h4]; decide
  rw [if_neg h4]
  by_cases h5 : pyLower c = "germany"
  · rw [if_pos h5]; unfold get_capital_city; rw [h5]; decide
  rw [if_neg h5]
  by_cases h6 : pyLower c = "italy"
  · rw [if_pos h6]; unfold get_capital_city; rw [h6]; decide
  rw [if_neg h6]
  by_cases h7 : pyLower c = "spain"
  · rw [if_pos h7]; unfold get_capital_city; rw [h7]; decide
  rw [if_neg h7]
  by_cases h8 : pyLower c = "uk"
  · rw [if_pos h8]; unfold get_capital_city; rw [h8]; decide
  rw [if_neg h8]
  by_cases h9 : pyLower c = "united kingdom"
  · rw [if_pos h9]; unfold get_capital_city; rw [h9]; decide
  rw [if_neg h9]
  by_cases h10 : pyLower c = "canada"
  · rw [if_pos h10]; unfold get_capital_city; rw [h10]; decide
  rw [if_neg h10]
  by_cases h11 : pyLower c = "australia"
  · rw [if_pos h11]; unfold get_capital_city; rw [h11]; decide
  rw [if_neg h11]
  unfold get_capital_city capitals
  have e1 : (pyLower c == "france") = false := beq_eq_false_iff_ne.mpr h1
  have e2 : (pyLower c == "japan") = false := beq_eq_false_iff_ne.mpr h2
  have e3 : (pyLower c == "usa") = false := beq_eq_false_iff_ne.mpr h3
  have e4 : (pyLower c == "united states") = false := beq_eq_false_iff_ne.mpr h4
  have e5 : (pyLower c == "germany") = false := beq_eq_false_iff_ne.mpr h5
  have e6 : (pyLower c == "italy") = false := beq_eq_false_iff_ne.mpr h6
  have e7 : (pyLower c == "spain") = false := beq_eq_false_iff_ne.mpr h7
  have e8 : (pyLower c == "uk") = false := beq_eq_false_iff_ne.mpr h8
  have e9 : (pyLower c == "united kingdom") = false := beq_eq_false_iff_ne.mpr h9
  have e10 : (pyLower c == "canada") = false := beq_eq_false_iff_ne.mpr h10
  have e11 : (pyLower c == "australia") = false := beq_eq_false_iff_ne.mpr h11
  simp [List.lookup_cons, List.lookup_nil, e1, e2, e3, e4, e5, e6, e7, e8,
    e9, e10, e11]

/-- C2: the country-extraction step returns the first entry of the
fixed list, in list order, that occurs as a substring of the lowercased
input, and none when no entry occurs; pySubstr really is substring
occurrence. -/
theorem country_extraction_first_match (input : String) :
    extractCountryInteractive input
        = (countriesInteractive.filter (fun c => pySubstr c (pyLower input))).head?
  ∧ extractCountryDemo input
        = (countriesDemo.filter (fun c => pySubstr c (pyLower input))).head?
  ∧ ∀ c : String, pySubstr c (pyLower input) = true ↔
        ∃ pre post, (pyLower input).data = pre ++ (c.data ++ post) := by
  refine ⟨find?_eq_head?_filter _ _, find?_eq_head?_filter _ _, ?_⟩
  intro c
  exact hasSubList_iff_exists c.data (pyLower input).data

/-- C3 counterexample: the utterance "hello there" is processed by the
interactive pipeline (the analysis call is made) but only one
generate_content round trip happens, not two; the no-country branch
skips the final-response call. -/
theorem two_round_trips_cex :
    llmCallCount (interactiveTurnEvents "hello there") = 1
  ∧ llmCallCount (interactiveTurnEvents "hello there") ≠ 2
  ∧ llmCallCount (demoTurnEvents "What is the capital of Japan?") ≠ 2 := by
  decide

/-- C3 amended: the interactive path always makes the analysis call and
makes the final-response call exactly when a country is extracted (two
round trips when a country is found, one otherwise); the demo path
makes no analysis call and only the final-response call when a country
is found (one round trip when found, zero otherwise). -/
theorem llm_round_trip_counts (input : String) :
    llmCallCount (interactiveTurnEvents input)
        = (if (extractCountryInteractive input).isSome then 2 else 1)
  ∧ llmCallCount (demoTurnEvents input)
        = (if (extractCountryDemo input).isSome then 1 else 0) := by
  constructor
  · unfold interactiveTurnEvents
    cases extractCountryInteractive input <;> simp [llmCallCount, isLlmCall]
  · unfold demoTurnEvents
    cases extractCountryDemo input <;> simp [llmCallCount, isLlmCall]

/-- C4 counterexample: on the first demo question the two code paths do
not run the same pipeline: the interactive path makes two model round
trips, the demo path one, and the event traces differ. -/
theorem demo_pipeline_cex :
    llmCallCount (interactiveTurnEvents "What is the capital of Japan?") = 2
  ∧ llmCallCount (demoTurnEvents "What is the capital of Japan?") = 1
  ∧ demoTurnEvents "What is the capital of Japan?"
      ≠ interactiveTurnEvents "What is the capital of Japan?" := by
  decide

/-- C4 amended: on every question the demo path performs the same
country extraction and the same tool calls as the interactive path, and
its trace is the interactive trace minus the leading analysis model
call, which the demo path omits. -/
theorem demo_refines_interactive (q : String) :
    extractCountryDemo q = extractCountryInteractive q
  ∧ interactiveTurnEvents q = Event.llmAnalysis q :: demoTurnEvents q
  ∧ toolCallsOf (demoTurnEvents q) = toolCallsOf (interactiveTurnEvents q) := by
  have he : extractCountryDemo q = extractCountryInteractive q := rfl
  refine ⟨he, ?_, ?_⟩
  · unfold interactiveTurnEvents demoTurnEvents
    rw [he]
    cases extractCountryInteractive q <;> rfl
  · unfold interactiveTurnEvents demoTurnEvents
    rw [he]
    cases extractCountryInteractive q <;> rfl

/-- C5 counterexample: a KeyboardInterrupt raised during a turn is an
exception, yet the loop terminates instead of continuing (and its text
is not echoed; the handler prints a goodbye). -/
theorem interrupt_terminates_cex :
    (loopIter "" TurnInput.keyboardInterrupt).keepLooping = false
  ∧ (loopIter "" TurnInput.keyboardInterrupt).printed = ["\nGoodbye!"] :=
  ⟨rfl, rfl⟩

/-- C5 amended: every exception caught by the except Exception clause
has its text printed after an [ERROR] tag and the loop continues to the
next prompt; a KeyboardInterrupt is instead handled by its own clause,
which prints a goodbye and terminates the loop. -/
theorem catch_all_prints_and_continues (respText msg : String) :
    (loopIter respText (TurnInput.exc msg)).keepLooping = true
  ∧ (loopIter respText (TurnInput.exc msg)).printed
      = ["[ERROR] " ++ msg, "Please try again.", ""]
  ∧ (loopIter respText TurnInput.keyboardInterrupt).keepLooping = false
  ∧ (loopIter respText TurnInput.keyboardInterrupt).printed = ["\nGoodbye!"] :=
  ⟨rfl, rfl, rfl, rfl⟩

/-- C6: with GEMINI_API_KEY unset the script prints a warning and does
not halt; no key is configured, so a generate_content call fails, and
nothing before such a call can fail for this reason. -/
theorem api_key_missing_warns_continues (prompt respText : String) :
    (startup none).printed
        = ["Warning: GEMINI_API_KEY environment variable not set"]
  ∧ (startup none).halted = false
  ∧ (startup none).configured = false
  ∧ generate_content (startup none).configured prompt respText
      = Except.error "API key not configured" :=
  ⟨rfl, rfl, rfl, rfl⟩

/-- C7: the country keys of the capital lookup table are pairwise
distinct and all entirely lowercase. The table is a literal local to
get_capital_city, read only through a lookup, so the embedding carries
no mutating operation on it. -/
theorem capitals_keys_invariant :
    (capitals.map Prod.fst).Nodup
  ∧ (capitals.map Prod.fst).all (fun k => pyLower k == k) = true :=
  ⟨by decide, by decide⟩

/-- C8: run_async is append-only and write-only on
conversation_history: its printed output does not depend on the
incoming history, and the history is only extended by a suffix
determined by the event stream alone. -/
theorem conversation_history_noninterference
    (h : List Msg) (evs : List (Option String)) :
    (run_async h evs).1 = (run_async [] evs).1
  ∧ (run_async h evs).2 = h ++ (run_async [] evs).2 := by
  obtain ⟨k1, k2⟩ := runAsyncLoop_hist evs h
  exact ⟨by simp [run_async, k1], by simp [run_async, k2]⟩

/-- C9: a country extracted by the pipeline is always an entry of the
countries list, every such entry is a key of the capital table, and the
subsequent get_capital_city call never returns Unknown. -/
theorem extraction_hits_table (input c : String)
    (h : extractCountryInteractive input = some c) :
    c ∈ countriesInteractive
  ∧ (capitals.lookup (pyLower c)).isSome = true
  ∧ get_capital_city c ≠ "Unknown" := by
  have h' : countriesInteractive.find? (fun k => pySubstr k (pyLower input))
      = some c := h
  have hc : c ∈ countriesInteractive := List.mem_of_find?_eq_some h'
  refine ⟨hc, ?_, ?_⟩ <;>
  · simp only [countriesInteractive, List.mem_cons, List.mem_singleton,
      List.not_mem_nil, or_false] at hc
    rcases hc with rfl | rfl | rfl | rfl | rfl | rfl | rfl | rfl | rfl | rfl | rfl <;>
      decide

/-- C9 witness. -/
theorem extraction_hits_table_witness :
    "japan" ∈ countriesInteractive
  ∧ (capitals.lookup (pyLower "japan")).isSome = true
  ∧ get_capital_city "japan" ≠ "Unknown" :=
  extraction_hits_table "What is the capital of Japan?" "japan" (by decide)

/-- C10: a line that is blank after stripping is skipped entirely (no
print, no model or tool event, and the loop goes on to the next
prompt), and a line input terminates the loop exactly when its
stripped, lowercased text is quit, exit or bye. -/
theorem blank_skipped_quit_terminates (respText s : String) :
    (pyStrip s = "" →
        loopIter respText (TurnInput.line s)
          = { keepLooping := true, printed := [], events := [] })
  ∧ ((loopIter respText (TurnInput.line s)).keepLooping = false
        ↔ pyLower (pyStrip s) ∈ (["quit", "exit", "bye"] : List String)) := by
  constructor
  · intro hb
    simp only [loopIter]
    rw [hb]
    rfl
  · simp only [loopIter]
    by_cases hq :
        (["quit", "exit", "bye"] : List String).contains (pyLower (pyStrip s))
    · rw [if_pos hq]
      simpa using List.elem_iff.mp hq
    · rw [if_neg hq]
      have hm : pyLower (pyStrip s) ∉ (["quit", "exit", "bye"] : List String) :=
        fun hmem => hq (List.elem_iff.mpr hmem)
      by_cases hb : (pyStrip s == "") = true
      · rw [if_pos hb]
        simpa using hm
      · rw [if_neg hb]
        simpa using hm

/-- C10 witness. -/
theorem blank_skipped_quit_terminates_witness :
    (loopIter "ok" (TurnInput.line "   ")
        = { keepLooping := true, printed := [], events := [] })
  ∧ ((loopIter "ok" (TurnInput.line " QUIT ")).keepLooping = false
        ↔ pyLower (pyStrip " QUIT ") ∈ (["quit", "exit", "bye"] : List String)) :=
  ⟨(blank_skipped_quit_terminates "ok" "   ").1 (by decide),
   (blank_skipped_quit_terminates "ok" " QUIT ").2⟩

end CapitalAgent
